import Mathlib

/-!
Verification of the snake-ghost repository core logic.

Shallow embedding of:
- the Snake creature state machine (body, direction string, deferred growth),
- the Food placement logic with its bounded resampling loop,
- the GameLoop per-frame delta computation and callback dispatch,
- the Game orchestrator tick (pending-direction application with rollback,
  collision check before movement).

TypeScript numbers used as grid coordinates are modelled as Int, the
growth counter as Nat (it is only ever set to 0, incremented, or
decremented under a positivity guard), wall-clock times and Math.random
outputs as Rat. Directions are kept as strings, as in the source, since
the setter performs no membership validation. Methods are pure
state-passing functions; JavaScript `body[0]` on an empty array (which
would fault at the subsequent property access) is given the junk value
(0,0), and every theorem touching the head either supplies a non-empty
body or proves a fact independent of that junk value.
-/

namespace SnakeGhost

/-- Grid position, from `types.ts` (`Point` with numeric x/y). -/
structure Point where
  x : Int
  y : Int
deriving DecidableEq, Repr

/-- Creature state, from the Snake class fields: `body` (head first),
`direction` (a raw string), `growthPending` (deferred growth counter). -/
structure Snake where
  body : List Point
  direction : String
  growthPending : Nat
deriving DecidableEq, Repr

/-- Embeds `Snake.createInitialBody`: head at the start position and two
trailing segments extending to the left. -/
def createInitialBody (startX startY : Int) : List Point :=
  [⟨startX, startY⟩, ⟨startX - 1, startY⟩, ⟨startX - 2, startY⟩]

/-- Embeds the Snake constructor: initial body, direction "right",
no pending growth. -/
def mkSnake (startX startY : Int) : Snake :=
  { body := createInitialBody startX startY
    direction := "right"
    growthPending := 0 }

/-- Embeds `Snake.getHead` (`this.body[0]`); (0,0) stands for the
JavaScript fault on an empty body, which no reachable state has. -/
def Snake.getHead (s : Snake) : Point :=
  s.body.headD ⟨0, 0⟩

/-- Embeds `Snake.getBodyLength`. -/
def Snake.getBodyLength (s : Snake) : Nat :=
  s.body.length

/-- Embeds `Snake.getDirectionVector`: the four cardinal unit vectors,
with (1,0) as the default for any unrecognized direction string. -/
def Snake.getDirectionVector (s : Snake) : Point :=
  if s.direction = "right" then ⟨1, 0⟩
  else if s.direction = "left" then ⟨-1, 0⟩
  else if s.direction = "up" then ⟨0, -1⟩
  else if s.direction = "down" then ⟨0, 1⟩
  else ⟨1, 0⟩

/-- Embeds `Snake.isOppositeDirection`: exactly the four reversal pairs. -/
def isOppositeDirection (currentDir newDir : String) : Bool :=
  (currentDir == "right" && newDir == "left") ||
  (currentDir == "left" && newDir == "right") ||
  (currentDir == "up" && newDir == "down") ||
  (currentDir == "down" && newDir == "up")

/-- Embeds `Snake.setDirection`: a no-op when the new direction is the
exact opposite of the stored one, otherwise stores the argument as is. -/
def Snake.setDirection (s : Snake) (newDirection : String) : Snake :=
  if isOppositeDirection s.direction newDirection then s
  else { s with direction := newDirection }

/-- Embeds `Snake.containsPosition`. -/
def Snake.containsPosition (s : Snake) (x y : Int) : Bool :=
  s.body.any (fun segment => segment.x == x && segment.y == y)

/-- The predicted next head position (head plus direction vector), as
computed identically inside `checkSelfCollision` and
`checkBoundaryCollision`. -/
def Snake.nextHeadPosition (s : Snake) : Point :=
  ⟨s.getHead.x + s.getDirectionVector.x, s.getHead.y + s.getDirectionVector.y⟩

/-- Embeds `Snake.checkSelfCollision`: the predicted next head position is
matched against `body.slice(1)`, i.e. every segment except the head. -/
def Snake.checkSelfCollision (s : Snake) : Bool :=
  (s.body.drop 1).any
    (fun segment => segment.x == s.nextHeadPosition.x && segment.y == s.nextHeadPosition.y)

/-- Embeds `Snake.checkBoundaryCollision`: the predicted next head
position is outside [0,width) x [0,height). -/
def Snake.checkBoundaryCollision (s : Snake) (gameWidth gameHeight : Int) : Bool :=
  decide (s.nextHeadPosition.x < 0) || decide (gameWidth ≤ s.nextHeadPosition.x) ||
  decide (s.nextHeadPosition.y < 0) || decide (gameHeight ≤ s.nextHeadPosition.y)

/-- Embeds `Snake.reset`: rebuilds the initial body at the given start
position, restores direction "right" and clears the growth counter. -/
def Snake.reset (_s : Snake) (startX startY : Int) : Snake :=
  { body := createInitialBody startX startY
    direction := "right"
    growthPending := 0 }

/-- Embeds `Snake.eat`: increments the deferred growth counter only. -/
def Snake.eat (s : Snake) : Snake :=
  { s with growthPending := s.growthPending + 1 }

/-- Embeds `Snake.move`: prepends the new head (head advanced one cell in
the stored direction, defaulting to right for unrecognized strings); if
growth is pending the counter is decremented and the tail kept, otherwise
the tail is popped. -/
def Snake.move (s : Snake) : Snake :=
  let head := s.getHead
  let newHead : Point :=
    if s.direction = "right" then ⟨head.x + 1, head.y⟩
    else if s.direction = "left" then ⟨head.x - 1, head.y⟩
    else if s.direction = "up" then ⟨head.x, head.y - 1⟩
    else if s.direction = "down" then ⟨head.x, head.y + 1⟩
    else ⟨head.x + 1, head.y⟩
  if 0 < s.growthPending then
    { s with body := newHead :: s.body, growthPending := s.growthPending - 1 }
  else
    { s with body := (newHead :: s.body).dropLast }

/-- Embeds `Snake.getDirection`. -/
def Snake.getDirection (s : Snake) : String :=
  s.direction

/-- The two Snake mutators whose interleavings the growth-accounting
property quantifies over. -/
inductive FeedOp where
  | eat
  | move
deriving DecidableEq, Repr

/-- Runs one `eat`/`move` call. -/
def runFeedOp : FeedOp → Snake → Snake
  | FeedOp.eat, s => s.eat
  | FeedOp.move, s => s.move

/-- Runs a call sequence of `eat`/`move`, oldest call first. -/
def runFeedOps : List FeedOp → Snake → Snake
  | [], s => s
  | op :: ops, s => runFeedOps ops (runFeedOp op s)

/-- Number of `eat()` calls in a call sequence. -/
def countEat : List FeedOp → Nat
  | [] => 0
  | FeedOp.eat :: ops => countEat ops + 1
  | FeedOp.move :: ops => countEat ops

/-- All public Snake mutators, for quantifying over arbitrary call
sequences. -/
inductive SnakeOp where
  | move
  | eat
  | setDir (newDirection : String)
  | reset (startX startY : Int)
deriving Repr

/-- Runs one public mutator call. -/
def runSnakeOp : SnakeOp → Snake → Snake
  | SnakeOp.move, s => s.move
  | SnakeOp.eat, s => s.eat
  | SnakeOp.setDir d, s => s.setDirection d
  | SnakeOp.reset x y, s => s.reset x y

/-- Runs a sequence of public mutator calls, oldest call first. -/
def runSnakeOps : List SnakeOp → Snake → Snake
  | [], s => s
  | op :: ops, s => runSnakeOps ops (runSnakeOp op s)

/-- The opposite-direction map of the specification (up-down and
left-right swap, identity on anything else), used to state the reversal
properties. -/
def opposite (d : String) : String :=
  if d = "up" then "down"
  else if d = "down" then "up"
  else if d = "left" then "right"
  else if d = "right" then "left"
  else d

/-- Embeds `Food.isValidPosition`: the given food position coincides with
no body segment. The TS method reads `this.position`; it is passed
explicitly here. -/
def Food.isValidPosition (position : Point) (snakeBody : List Point) : Bool :=
  !(snakeBody.any (fun segment =>
      segment.x == position.x && segment.y == position.y))

/-- Embeds `Food.generateRandomPosition`: the two `Math.random()` calls
are modelled by the supplied rational pair (each component in [0,1) for a
faithful random source); the sampled cell is the pair of floors. -/
def generateRandomPosition (gameWidth gameHeight : Int) (r : ℚ × ℚ) : Point :=
  ⟨⌊r.1 * (gameWidth : ℚ)⌋, ⌊r.2 * (gameHeight : ℚ)⌋⟩

/-- Embeds the do-while loop of `Food.generateRandomPositionAvoidingSnake`:
sample, count the attempt, continue while the sample is invalid and the
attempt count is still below `maxAttempts`. `rand` supplies the random
pair for each attempt index. The `fuel` argument makes the recursion
structural; called with `fuel = maxAttempts` and `attempts = 0` the
fuel-exhaustion branch coincides with the loop guard (when fuel reaches 0,
`attempts + 1 < maxAttempts` is false as well), so the function computes
exactly what the source loop does. Returns the final position together
with the attempt count. -/
def Food.sampleLoop (gameWidth gameHeight : Int) (rand : ℕ → ℚ × ℚ)
    (snakeBody : List Point) (maxAttempts : ℕ) : ℕ → ℕ → Point × ℕ
  | 0, attempts => (generateRandomPosition gameWidth gameHeight (rand attempts), attempts + 1)
  | fuel + 1, attempts =>
    let position := generateRandomPosition gameWidth gameHeight (rand attempts)
    if Food.isValidPosition position snakeBody = false ∧ attempts + 1 < maxAttempts then
      Food.sampleLoop gameWidth gameHeight rand snakeBody maxAttempts fuel (attempts + 1)
    else (position, attempts + 1)

/-- Embeds `Food.generateRandomPositionAvoidingSnake`. The source sets
`maxAttempts = gameWidth * gameHeight`; `Int.toNat` agrees with the
source's exit behavior for non-positive products (the guard
`attempts < maxAttempts` is false from the first check either way). -/
def Food.generateRandomPositionAvoidingSnake (gameWidth gameHeight : Int)
    (rand : ℕ → ℚ × ℚ) (snakeBody : List Point) : Point × ℕ :=
  Food.sampleLoop gameWidth gameHeight rand snakeBody
    (gameWidth * gameHeight).toNat (gameWidth * gameHeight).toNat 0

/-- The `GameLoopState` record from `types.ts`, with times in
milliseconds as exact rationals and the delta in seconds. -/
structure GameLoopState where
  isRunning : Bool
  isPaused : Bool
  lastFrameTime : ℚ
  deltaTime : ℚ
deriving DecidableEq, Repr

/-- The observable callback invocations of one frame, in order. -/
inductive FrameEvent where
  | update (deltaTime : ℚ)
  | render
deriving DecidableEq, Repr

/-- Embeds one execution of `GameLoop.loop` at frame time `currentTime`:
exit if not running; otherwise compute the delta in seconds clamped at
0.1, store it and the new frame time, and (unless paused) invoke the
update callback before the render callback, each only when present.
The `requestAnimationFrame` rescheduling is outside the model. -/
def GameLoop.loopFrame (state : GameLoopState) (currentTime : ℚ)
    (hasUpdateCallback hasRenderCallback : Bool) : GameLoopState × List FrameEvent :=
  if state.isRunning = false then (state, [])
  else
    let deltaTime := min ((currentTime - state.lastFrameTime) / 1000) (1 / 10)
    let state' : GameLoopState :=
      { state with deltaTime := deltaTime, lastFrameTime := currentTime }
    if state'.isPaused then (state', [])
    else
      (state',
        (if hasUpdateCallback then [FrameEvent.update deltaTime] else []) ++
          (if hasRenderCallback then [FrameEvent.render] else []))

/-- Game.GAME_WIDTH from `main.ts`. -/
def GAME_WIDTH : Int := 20

/-- Game.GAME_HEIGHT from `main.ts`. -/
def GAME_HEIGHT : Int := 15

/-- Game.SNAKE_MOVE_INTERVAL from `main.ts`, in milliseconds. -/
def SNAKE_MOVE_INTERVAL : ℚ := 200

/-- The orchestrator state owned by the Game class: the snake, the tick
accumulator, the terminal flag, and the queued direction. -/
structure Game where
  snake : Snake
  lastMoveTime : ℚ
  gameOver : Bool
  pendingDirection : Option String
deriving DecidableEq, Repr

/-- Embeds `Game.getDirectionVector` (distinct from the Snake method: its
default for unrecognized strings is the zero vector). -/
def Game.getDirectionVector (direction : String) : Point :=
  if direction = "up" then ⟨0, -1⟩
  else if direction = "down" then ⟨0, 1⟩
  else if direction = "left" then ⟨-1, 0⟩
  else if direction = "right" then ⟨1, 0⟩
  else ⟨0, 0⟩

/-- Embeds `Game.snakeIsGrowing`. The source returns the constant `false`
("For now, assume no growth - this is a simplification"), although its
doc comment promises `true` when growth is pending. -/
def Game.snakeIsGrowing (_g : Game) : Bool :=
  false

/-- Embeds `Game.wouldCauseImmediateCollision`: the head advanced by the
tested direction's vector must stay inside the 20x15 bounds and avoid
every body segment of index 1 and above, except that the tail index is
skipped whenever `snakeIsGrowing` is false. -/
def Game.wouldCauseImmediateCollision (g : Game) (direction : String) : Bool :=
  let directionVector := Game.getDirectionVector direction
  let head := g.snake.getHead
  let nextHeadPosition : Point :=
    ⟨head.x + directionVector.x, head.y + directionVector.y⟩
  if nextHeadPosition.x < 0 ∨ GAME_WIDTH ≤ nextHeadPosition.x ∨
      nextHeadPosition.y < 0 ∨ GAME_HEIGHT ≤ nextHeadPosition.y then
    true
  else
    (g.snake.body.enum.drop 1).any (fun iseg =>
      if iseg.1 == g.snake.body.length - 1 && !g.snakeIsGrowing then false
      else iseg.2.x == nextHeadPosition.x && iseg.2.y == nextHeadPosition.y)

/-- Embeds `Game.applyPendingDirectionChange`: tentatively apply the
queued direction, revert to the previously stored direction when
`wouldCauseImmediateCollision` reports a collision, and clear the queue
either way. -/
def Game.applyPendingDirectionChange (g : Game) : Game :=
  match g.pendingDirection with
  | none => g
  | some pending =>
    let oldDirection := g.snake.getDirection
    let g1 : Game := { g with snake := g.snake.setDirection pending }
    let g2 : Game :=
      if g1.wouldCauseImmediateCollision pending then
        { g1 with snake := g1.snake.setDirection oldDirection }
      else g1
    { g2 with pendingDirection := none }

/-- Embeds `Game.checkCollision`: boundary collision on the 20x15 grid or
self collision. -/
def Game.checkCollision (g : Game) : Bool :=
  g.snake.checkBoundaryCollision GAME_WIDTH GAME_HEIGHT || g.snake.checkSelfCollision

/-- Embeds `Game.updateSnakeMovement` for one update call with
`deltaTime` in seconds: a no-op once the game is over; otherwise the
accumulator advances by the delta in milliseconds, and when it reaches
the 200 ms interval the pending direction is finalized, a detected
collision sets the terminal flag without moving (and without resetting
the accumulator, matching the early return), and otherwise the snake
moves and the accumulator resets. -/
def Game.updateSnakeMovement (g : Game) (deltaTime : ℚ) : Game :=
  if g.gameOver then g
  else
    let g1 : Game := { g with lastMoveTime := g.lastMoveTime + deltaTime * 1000 }
    if SNAKE_MOVE_INTERVAL ≤ g1.lastMoveTime then
      let g2 := g1.applyPendingDirectionChange
      if g2.checkCollision then { g2 with gameOver := true }
      else { g2 with snake := g2.snake.move, lastMoveTime := 0 }
    else g1

/-- A growing creature whose queued turn targets its own tail cell: the
body hooks around a 2x2 block, the head at (5,5) faces right, the tail
sits at (5,6) directly below the head, one growth event is pending, and
"down" is queued. Because growth is pending, the tail will not vacate on
this tick. -/
def growingTailGame : Game :=
  { snake :=
      { body := [⟨5, 5⟩, ⟨4, 5⟩, ⟨4, 6⟩, ⟨5, 6⟩]
        direction := "right"
        growthPending := 1 }
    lastMoveTime := 0
    gameOver := false
    pendingDirection := some "down" }

/-- Scenario D of the specification: a creature at (19,10) moving right
against the eastern boundary, with no queued direction, at the instant a
200 ms tick fires. -/
def scenarioD : Game :=
  { snake := mkSnake 19 10
    lastMoveTime := 0
    gameOver := false
    pendingDirection := none }

/-! Helper lemmas shared between several claims. -/

/-- setDirection never touches the body. -/
lemma setDirection_body (s : Snake) (newDirection : String) :
    (s.setDirection newDirection).body = s.body := by
  unfold Snake.setDirection
  split <;> rfl

/-- setDirection never touches the growth counter. -/
lemma setDirection_growthPending (s : Snake) (newDirection : String) :
    (s.setDirection newDirection).growthPending = s.growthPending := by
  unfold Snake.setDirection
  split <;> rfl

/-- An accepted direction change stores its argument. -/
lemma setDirection_accept (s : Snake) (newDirection : String)
    (h : isOppositeDirection s.direction newDirection = false) :
    (s.setDirection newDirection).direction = newDirection := by
  simp [Snake.setDirection, h]

/-- A rejected direction change leaves the whole state alone. -/
lemma setDirection_reject (s : Snake) (newDirection : String)
    (h : isOppositeDirection s.direction newDirection = true) :
    s.setDirection newDirection = s := by
  simp [Snake.setDirection, h]

/-- The reversal test, spelled out propositionally. -/
lemma isOppositeDirection_iff (currentDir newDir : String) :
    isOppositeDirection currentDir newDir = true ↔
      (currentDir = "right" ∧ newDir = "left") ∨ (currentDir = "left" ∧ newDir = "right") ∨
      (currentDir = "up" ∧ newDir = "down") ∨ (currentDir = "down" ∧ newDir = "up") := by
  unfold isOppositeDirection
  simp [Bool.or_eq_true, Bool.and_eq_true, beq_iff_eq, or_assoc]

/-- Two grid positions with equal coordinates are equal. -/
lemma Point.eq_of_coords {p q : Point} (hx : p.x = q.x) (hy : p.y = q.y) : p = q := by
  cases p
  cases q
  cases hx
  cases hy
  rfl

/-- When the first direction change is accepted and the second is the
rejected reversal, the first direction survives both calls. -/
lemma roundtrip_core (s : Snake) (d od : String)
    (hacc : isOppositeDirection s.direction d = false)
    (hrej : isOppositeDirection d od = true) :
    ((s.setDirection d).setDirection od).direction = d := by
  have h2 := setDirection_accept s d hacc
  have h4 : isOppositeDirection (s.setDirection d).direction od = true := by
    rw [h2]
    exact hrej
  rw [setDirection_reject _ _ h4, h2]

/-- Growth bookkeeping along any interleaving of eat and move: the sum of
body length and pending growth advances by exactly one per eat call, and
pending growth never exceeds the eat count. -/
lemma runFeedOps_accounting (ops : List FeedOp) (s : Snake) :
    (runFeedOps ops s).body.length + (runFeedOps ops s).growthPending
        = s.body.length + s.growthPending + countEat ops
      ∧ (runFeedOps ops s).growthPending ≤ s.growthPending + countEat ops := by
  induction ops generalizing s with
  | nil => simp [runFeedOps, countEat]
  | cons op ops ih =>
    cases op with
    | eat =>
      have h := ih (s.eat)
      have hb : (s.eat).body = s.body := rfl
      have hg : (s.eat).growthPending = s.growthPending + 1 := rfl
      rw [hb, hg] at h
      simp only [runFeedOps, runFeedOp, countEat]
      omega
    | move =>
      have h := ih (s.move)
      simp only [runFeedOps, runFeedOp, countEat]
      rcases Nat.eq_zero_or_pos s.growthPending with h0 | h0
      · have hb : (s.move).body.length = s.body.length := by
          simp [Snake.move, h0, List.length_dropLast]
        have hg : (s.move).growthPending = s.growthPending := by
          simp [Snake.move, h0]
        rw [hb, hg] at h
        omega
      · have hb : (s.move).body.length = s.body.length + 1 := by
          simp [Snake.move, h0]
        have hg : (s.move).growthPending = s.growthPending - 1 := by
          simp [Snake.move, h0]
        rw [hb, hg] at h
        omega

/-- A length lower bound survives any sequence of public mutator calls. -/
lemma runSnakeOps_length (ops : List SnakeOp) (s : Snake)
    (h : 3 ≤ s.body.length) : 3 ≤ (runSnakeOps ops s).body.length := by
  induction ops generalizing s with
  | nil => exact h
  | cons op ops ih =>
    refine ih (runSnakeOp op s) ?_
    cases op with
    | move =>
      rcases Nat.eq_zero_or_pos s.growthPending with h0 | h0
      · simpa [runSnakeOp, Snake.move, h0, List.length_dropLast] using h
      · simp only [runSnakeOp, Snake.move, h0, if_pos, List.length_cons]
        omega
    | eat => simpa [runSnakeOp, Snake.eat] using h
    | setDir d => simpa [runSnakeOp, setDirection_body] using h
    | reset x y => simp [runSnakeOp, Snake.reset, createInitialBody]

/-- C3: eat() increments pendingGrowth and leaves the body unchanged;
move() with pending growth keeps the tail and lengthens the body by one,
move() without pending growth keeps the length; and over any interleaving
of eat and move from a fresh creature, body length plus outstanding
growth equals 3 plus the number of eat calls (so the length is 3 plus the
number of consumed eat calls, each consumed by exactly one move). -/
theorem eat_move_growth_accounting :
    (∀ s : Snake, (s.eat).growthPending = s.growthPending + 1 ∧ (s.eat).body = s.body)
    ∧ (∀ s : Snake, 0 < s.growthPending → s.body ≠ [] →
        (s.move).body.length = s.body.length + 1
          ∧ (s.move).body.getLast? = s.body.getLast?)
    ∧ (∀ s : Snake, s.growthPending = 0 →
        (s.move).body.length = s.body.length)
    ∧ ∀ (ops : List FeedOp) (x y : Int),
        (runFeedOps ops (mkSnake x y)).body.length
            + (runFeedOps ops (mkSnake x y)).growthPending
          = 3 + countEat ops
        ∧ (runFeedOps ops (mkSnake x y)).growthPending ≤ countEat ops := by
  refine ⟨fun s => ⟨rfl, rfl⟩, ?_, ?_, ?_⟩
  · intro s hpos hne
    obtain ⟨body, dir, gp⟩ := s
    rcases body with _ | ⟨b, l⟩
    · exact absurd rfl hne
    · refine ⟨?_, ?_⟩
      · simp only [Snake.move]
        rw [if_pos hpos]
        simp
      · simp only [Snake.move]
        rw [if_pos hpos]
        simp [List.getLast?_cons_cons]
  · intro s h0
    simp [Snake.move, h0, List.length_dropLast]
  · intro ops x y
    have h := runFeedOps_accounting ops (mkSnake x y)
    have hl : (mkSnake x y).body.length = 3 := rfl
    have hg : (mkSnake x y).growthPending = 0 := rfl
    omega

/-- Witness for the growth accounting: a fresh creature that just ate
satisfies the growing-move hypotheses, and a fresh creature satisfies the
non-growing one. -/
theorem eat_move_growth_accounting_witness :
    (0 < ((mkSnake 10 5).eat).growthPending
      ∧ ((mkSnake 10 5).eat).body ≠ []
      ∧ (((mkSnake 10 5).eat).move).body.length = ((mkSnake 10 5).eat).body.length + 1)
    ∧ ((mkSnake 10 5).growthPending = 0
      ∧ ((mkSnake 10 5).move).body.length = (mkSnake 10 5).body.length) := by
  refine ⟨⟨by decide, by decide, ?_⟩, ⟨rfl, ?_⟩⟩
  · exact (eat_move_growth_accounting.2.1 _ (by decide) (by decide)).1
  · exact eat_move_growth_accounting.2.2.1 _ rfl

/-- C4: checkSelfCollision reports a hit exactly when the predicted next
head cell (head plus direction vector) equals a body segment at an index
of 1 or more — every segment other than the head itself, the tail
included — and therefore always reports false for a single-segment body.
The embedded method is a pure function of the state, mirroring that the
source method only reads the creature. -/
theorem checkSelfCollision_iff :
    (∀ s : Snake, s.checkSelfCollision = true ↔
      ∃ i : ℕ, 1 ≤ i ∧ i < s.body.length ∧ s.body.getD i ⟨0, 0⟩ = s.nextHeadPosition)
    ∧ ∀ s : Snake, s.body.length = 1 → s.checkSelfCollision = false := by
  constructor
  · intro s
    unfold Snake.checkSelfCollision
    rw [List.any_eq_true]
    constructor
    · rintro ⟨seg, hmem, hf⟩
      simp only [Bool.and_eq_true, beq_iff_eq] at hf
      have hseg : seg = s.nextHeadPosition := Point.eq_of_coords hf.1 hf.2
      rw [List.mem_iff_getElem] at hmem
      obtain ⟨j, hj, hget⟩ := hmem
      have hjlen : j < s.body.length - 1 := by simpa using hj
      have hlt : 1 + j < s.body.length := by omega
      refine ⟨1 + j, by omega, hlt, ?_⟩
      rw [List.getElem_drop] at hget
      rw [List.getD_eq_getElem?_getD, List.getElem?_eq_getElem hlt]
      simp only [Option.getD_some]
      rw [hget, hseg]
    · rintro ⟨i, h1, hlen, hget⟩
      have hi : i - 1 < (s.body.drop 1).length := by
        simp only [List.length_drop]
        omega
      have hmem : s.body.getD i ⟨0, 0⟩ ∈ s.body.drop 1 := by
        rw [List.mem_iff_getElem]
        refine ⟨i - 1, hi, ?_⟩
        rw [List.getElem_drop]
        rw [List.getD_eq_getElem?_getD, List.getElem?_eq_getElem hlen]
        simp only [Option.getD_some]
        simp only [show 1 + (i - 1) = i from by omega]
      refine ⟨_, hmem, ?_⟩
      simp only [Bool.and_eq_true, beq_iff_eq]
      rw [hget]
      exact ⟨rfl, rfl⟩
  · intro s h
    unfold Snake.checkSelfCollision
    rw [List.drop_eq_nil_of_le (by omega)]
    rfl

/-- Witness: a single-segment creature trips the hypothesis of the
length-one part, and indeed does not self-collide. -/
theorem checkSelfCollision_iff_witness :
    (⟨[⟨0, 0⟩], "right", 0⟩ : Snake).body.length = 1
    ∧ (⟨[⟨0, 0⟩], "right", 0⟩ : Snake).checkSelfCollision = false :=
  ⟨rfl, checkSelfCollision_iff.2 _ rfl⟩

/-- C5 counterexample: from a freshly constructed creature (stored
direction "right", a reachable state), the call pair
setDirection("left"); setDirection(opposite "left") leaves "right"
stored, not "left" — the first call is the rejected reversal and the
second call is accepted. -/
theorem setDirection_roundtrip_cex :
    ¬ ((((mkSnake 10 5).setDirection "left").setDirection (opposite "left")).direction
        = "left") := by
  decide

/-- C5 amended: setDirection is a no-op exactly when its argument is the
exact opposite of the stored direction, and for every valid direction d,
setDirection(d); setDirection(opposite d) leaves d stored provided the
stored direction was not already opposite(d) (in that excluded case the
first call is rejected and the second accepted, leaving opposite(d)). -/
theorem setDirection_roundtrip_amended :
    (∀ (s : Snake) (newDirection : String),
        (s.setDirection newDirection).direction =
          if isOppositeDirection s.direction newDirection then s.direction
          else newDirection)
    ∧ ∀ (d : String) (s : Snake),
        (d = "up" ∨ d = "down" ∨ d = "left" ∨ d = "right") →
        s.direction ≠ opposite d →
        ((s.setDirection d).setDirection (opposite d)).direction = d := by
  constructor
  · intro s nd
    cases h : isOppositeDirection s.direction nd <;> simp [Snake.setDirection, h]
  · intro d s hd hne
    have hrej : isOppositeDirection d (opposite d) = true := by
      rcases hd with h | h | h | h <;> subst h <;> decide
    have hacc : isOppositeDirection s.direction d = false := by
      rw [Bool.eq_false_iff]
      intro hc
      rcases (isOppositeDirection_iff _ _).mp hc with ⟨hcur, hd'⟩ | ⟨hcur, hd'⟩ | ⟨hcur, hd'⟩ | ⟨hcur, hd'⟩ <;>
        (subst hd'; exact hne (by rw [hcur]; decide))
    exact roundtrip_core s d (opposite d) hacc hrej

/-- Witness: turning a fresh creature up and then down leaves it up. -/
theorem setDirection_roundtrip_amended_witness :
    ((mkSnake 0 0).direction ≠ opposite "up")
    ∧ (((mkSnake 0 0).setDirection "up").setDirection (opposite "up")).direction = "up" :=
  ⟨by decide, setDirection_roundtrip_amended.2 "up" (mkSnake 0 0) (Or.inl rfl) (by decide)⟩

/-- C6: reset(x,y) after any sequence of public mutator calls yields
exactly the state of a fresh construction at (x,y): same body segments,
same direction, same growth counter. The mutator sequence here ranges
over all public mutators (move, eat, setDirection, and even earlier
resets), which covers the claimed move/eat/setDirection sequences. -/
theorem reset_roundtrip (ops : List SnakeOp) (x0 y0 x y : Int) :
    (runSnakeOps ops (mkSnake x0 y0)).reset x y = mkSnake x y := rfl

/-- C9: the creature has exactly 3 segments after construction and after
reset; setDirection and eat leave the body untouched; move preserves the
length or grows it by one; consequently every state reachable from a
fresh creature through public mutator calls has at least 3 segments. -/
theorem body_length_invariant :
    (∀ x y : Int, (mkSnake x y).getBodyLength = 3)
    ∧ (∀ (s : Snake) (x y : Int), (s.reset x y).getBodyLength = 3)
    ∧ (∀ (s : Snake) (d : String), (s.setDirection d).body = s.body)
    ∧ (∀ s : Snake, (s.eat).body = s.body)
    ∧ (∀ s : Snake, (s.move).getBodyLength = s.getBodyLength
        ∨ (s.move).getBodyLength = s.getBodyLength + 1)
    ∧ ∀ (ops : List SnakeOp) (x y : Int),
        3 ≤ (runSnakeOps ops (mkSnake x y)).getBodyLength := by
  refine ⟨fun x y => rfl, fun s x y => rfl, setDirection_body, fun s => rfl, ?_, ?_⟩
  · intro s
    rcases Nat.eq_zero_or_pos s.growthPending with h0 | h0
    · left
      simp [Snake.getBodyLength, Snake.move, h0, List.length_dropLast]
    · right
      simp [Snake.getBodyLength, Snake.move, h0]
  · intro ops x y
    exact runSnakeOps_length ops (mkSnake x y) (Nat.le_refl 3)

/-- C10: setDirection performs no membership validation — any string that
is not the exact opposite of the stored direction is stored verbatim —
and an unrecognized stored direction makes getDirectionVector fall back
to (1,0) and move advance the head by (+1,0). -/
theorem setDirection_no_validation :
    (∀ (s : Snake) (newDirection : String),
        isOppositeDirection s.direction newDirection = false →
        (s.setDirection newDirection).direction = newDirection)
    ∧ (∀ s : Snake,
        s.direction ≠ "up" → s.direction ≠ "down" →
        s.direction ≠ "left" → s.direction ≠ "right" →
        s.getDirectionVector = ⟨1, 0⟩)
    ∧ ∀ s : Snake,
        s.direction ≠ "up" → s.direction ≠ "down" →
        s.direction ≠ "left" → s.direction ≠ "right" →
        s.body ≠ [] →
        (s.move).getHead = ⟨s.getHead.x + 1, s.getHead.y⟩ := by
  refine ⟨setDirection_accept, ?_, ?_⟩
  · intro s h1 h2 h3 h4
    unfold Snake.getDirectionVector
    rw [if_neg h4, if_neg h3, if_neg h1, if_neg h2]
  · intro s h1 h2 h3 h4 hne
    obtain ⟨body, dir, gp⟩ := s
    rcases body with _ | ⟨b, l⟩
    · exact absurd rfl hne
    · simp only [Snake.move]
      rw [if_neg h4, if_neg h3, if_neg h1, if_neg h2]
      rcases Nat.eq_zero_or_pos gp with h0 | h0
      · rw [if_neg (by simp [h0])]
        simp [Snake.getHead]
      · rw [if_pos h0]
        simp [Snake.getHead]

/-- Witness: storing the unrecognized direction "ghost" succeeds on a
fresh creature, after which the direction vector is (1,0) and a move
advances the head from (10,5) to (11,5). -/
theorem setDirection_no_validation_witness :
    (isOppositeDirection (mkSnake 10 5).direction "ghost" = false
      ∧ ((mkSnake 10 5).setDirection "ghost").direction = "ghost")
    ∧ ((mkSnake 10 5).setDirection "ghost").getDirectionVector = ⟨1, 0⟩
    ∧ (((mkSnake 10 5).setDirection "ghost").move).getHead = ⟨11, 5⟩ := by
  refine ⟨⟨by decide, setDirection_no_validation.1 _ _ (by decide)⟩, ?_, ?_⟩
  · exact setDirection_no_validation.2.1 _ (by decide) (by decide) (by decide) (by decide)
  · have h := setDirection_no_validation.2.2 ((mkSnake 10 5).setDirection "ghost")
      (by decide) (by decide) (by decide) (by decide) (by decide)
    rw [h]
    decide

/-- Full characterization of the resampling do-while loop, for any fuel
covering the remaining budget: the attempt count grows by at least one,
respects the budget, every sample before the last was invalid, the last
sample is returned as is, and the loop only stops on a valid sample or an
exhausted budget. -/
lemma sampleLoop_spec (gameWidth gameHeight : Int) (rand : ℕ → ℚ × ℚ)
    (snakeBody : List Point) (maxAttempts : ℕ) :
    ∀ fuel attempts : ℕ, maxAttempts ≤ attempts + fuel →
      (attempts + 1 ≤ (Food.sampleLoop gameWidth gameHeight rand snakeBody maxAttempts fuel attempts).2)
      ∧ (attempts + 1 < maxAttempts →
          (Food.sampleLoop gameWidth gameHeight rand snakeBody maxAttempts fuel attempts).2 ≤ maxAttempts)
      ∧ (maxAttempts ≤ attempts + 1 →
          (Food.sampleLoop gameWidth gameHeight rand snakeBody maxAttempts fuel attempts).2 = attempts + 1)
      ∧ ((Food.sampleLoop gameWidth gameHeight rand snakeBody maxAttempts fuel attempts).1
          = generateRandomPosition gameWidth gameHeight
              (rand ((Food.sampleLoop gameWidth gameHeight rand snakeBody maxAttempts fuel attempts).2 - 1)))
      ∧ (∀ i, attempts ≤ i →
          i + 1 < (Food.sampleLoop gameWidth gameHeight rand snakeBody maxAttempts fuel attempts).2 →
          Food.isValidPosition (generateRandomPosition gameWidth gameHeight (rand i)) snakeBody = false)
      ∧ (Food.isValidPosition
            (Food.sampleLoop gameWidth gameHeight rand snakeBody maxAttempts fuel attempts).1 snakeBody = true
          ∨ maxAttempts ≤ (Food.sampleLoop gameWidth gameHeight rand snakeBody maxAttempts fuel attempts).2) := by
  intro fuel
  induction fuel with
  | zero =>
    intro attempts hle
    exact ⟨Nat.le_refl _, fun h => absurd h (by omega), fun _ => rfl, rfl,
      fun i hai hir => absurd (show i + 1 < attempts + 1 from hir) (by omega),
      Or.inr (show maxAttempts ≤ attempts + 1 from by omega)⟩
  | succ fuel ih =>
    intro attempts hle
    simp only [Food.sampleLoop]
    by_cases hg : Food.isValidPosition
        (generateRandomPosition gameWidth gameHeight (rand attempts)) snakeBody = false
        ∧ attempts + 1 < maxAttempts
    · rw [if_pos hg]
      obtain ⟨hginv, hglt⟩ := hg
      obtain ⟨iA1, iA2, iA3, iB, iC, iD⟩ := ih (attempts + 1) (by omega)
      refine ⟨by omega, ?_, ?_, iB, ?_, iD⟩
      · intro _
        rcases Nat.lt_or_ge (attempts + 1 + 1) maxAttempts with h2 | h2
        · exact iA2 h2
        · rw [iA3 h2]
          omega
      · intro hcontra
        exact absurd hglt (by omega)
      · intro i hai hir
        rcases Nat.eq_or_lt_of_le hai with rfl | hlt
        · exact hginv
        · exact iC i (by omega) hir
    · rw [if_neg hg]
      refine ⟨Nat.le_refl _,
        fun h => (show attempts + 1 ≤ maxAttempts from by omega), fun _ => rfl, rfl,
        fun i hai hir => absurd (show i + 1 < attempts + 1 from hir) (by omega), ?_⟩
      by_cases hv : Food.isValidPosition
          (generateRandomPosition gameWidth gameHeight (rand attempts)) snakeBody = true
      · exact Or.inl hv
      · have hinv : Food.isValidPosition
            (generateRandomPosition gameWidth gameHeight (rand attempts)) snakeBody = false :=
          Bool.eq_false_iff.mpr hv
        have hmax : ¬(attempts + 1 < maxAttempts) := fun hlt => hg ⟨hinv, hlt⟩
        exact Or.inr (show maxAttempts ≤ attempts + 1 from by omega)

/-- A sample from uniform randoms in [0,1) lies on the grid whenever the
grid is non-degenerate. -/
lemma generateRandomPosition_range (gameWidth gameHeight : Int) (r : ℚ × ℚ)
    (hw : 1 ≤ gameWidth) (hh : 1 ≤ gameHeight)
    (h1 : 0 ≤ r.1) (h2 : r.1 < 1) (h3 : 0 ≤ r.2) (h4 : r.2 < 1) :
    0 ≤ (generateRandomPosition gameWidth gameHeight r).x
    ∧ (generateRandomPosition gameWidth gameHeight r).x < gameWidth
    ∧ 0 ≤ (generateRandomPosition gameWidth gameHeight r).y
    ∧ (generateRandomPosition gameWidth gameHeight r).y < gameHeight := by
  have hw0 : (0 : Int) < gameWidth := by omega
  have hh0 : (0 : Int) < gameHeight := by omega
  have hwq : (0 : ℚ) < (gameWidth : ℚ) := by exact_mod_cast hw0
  have hhq : (0 : ℚ) < (gameHeight : ℚ) := by exact_mod_cast hh0
  unfold generateRandomPosition
  refine ⟨?_, ?_, ?_, ?_⟩
  · exact Int.le_floor.mpr (by push_cast; exact mul_nonneg h1 hwq.le)
  · refine Int.floor_lt.mpr ?_
    calc r.1 * (gameWidth : ℚ) < 1 * (gameWidth : ℚ) := by
          exact mul_lt_mul_of_pos_right h2 hwq
      _ = (gameWidth : ℚ) := one_mul _
  · exact Int.le_floor.mpr (by push_cast; exact mul_nonneg h3 hhq.le)
  · refine Int.floor_lt.mpr ?_
    calc r.2 * (gameHeight : ℚ) < 1 * (gameHeight : ℚ) := by
          exact mul_lt_mul_of_pos_right h4 hhq
      _ = (gameHeight : ℚ) := one_mul _

/-- C7 counterexample: on a 0x0 grid the do-while loop still performs one
sampling iteration — one more than the w*h = 0 budget the claim allows —
and leaves the cell (0,0), whose x-coordinate does not lie in [0, 0). -/
theorem food_respawn_budget_cex :
    (Food.generateRandomPositionAvoidingSnake 0 0 (fun _ => (0, 0)) []).2 = 1
    ∧ ¬ ((Food.generateRandomPositionAvoidingSnake 0 0 (fun _ => (0, 0)) []).2
          ≤ ((0 : Int) * 0).toNat)
    ∧ ¬ ((Food.generateRandomPositionAvoidingSnake 0 0 (fun _ => (0, 0)) []).1.x
          < (0 : Int)) := by
  have h0 : Food.generateRandomPositionAvoidingSnake 0 0 (fun _ => (0, 0)) []
      = (⟨⌊(0 : ℚ) * ((0 : Int) : ℚ)⌋, ⌊(0 : ℚ) * ((0 : Int) : ℚ)⌋⟩, 1) := rfl
  have hfloor : ⌊(0 : ℚ) * ((0 : Int) : ℚ)⌋ = 0 := by norm_num
  refine ⟨?_, ?_, ?_⟩
  · rw [h0]
  · rw [h0]
    decide
  · rw [h0]
    show ¬ (⌊(0 : ℚ) * ((0 : Int) : ℚ)⌋ < (0 : Int))
    rw [hfloor]
    decide

/-- C7 amended: the resampling loop performs at most max(w*h, 1) sampling
iterations (the do-while samples once even when the w*h budget is 0, so
"at most w*h" holds only for positive budgets); it keeps the final sample
even when invalid, stopping only on a valid sample or an exhausted
budget, with every earlier sample invalid; and for a non-degenerate grid
with randoms in [0,1), the position left behind lies in [0,w) x [0,h). -/
theorem food_respawn_bounded (gameWidth gameHeight : Int) (rand : ℕ → ℚ × ℚ)
    (snakeBody : List Point) :
    (1 ≤ (Food.generateRandomPositionAvoidingSnake gameWidth gameHeight rand snakeBody).2
      ∧ (Food.generateRandomPositionAvoidingSnake gameWidth gameHeight rand snakeBody).2
          ≤ Nat.max (gameWidth * gameHeight).toNat 1)
    ∧ ((Food.generateRandomPositionAvoidingSnake gameWidth gameHeight rand snakeBody).1
        = generateRandomPosition gameWidth gameHeight
            (rand ((Food.generateRandomPositionAvoidingSnake gameWidth gameHeight rand snakeBody).2 - 1)))
    ∧ (∀ i, i + 1 < (Food.generateRandomPositionAvoidingSnake gameWidth gameHeight rand snakeBody).2 →
        Food.isValidPosition (generateRandomPosition gameWidth gameHeight (rand i)) snakeBody = false)
    ∧ (Food.isValidPosition
          (Food.generateRandomPositionAvoidingSnake gameWidth gameHeight rand snakeBody).1 snakeBody = true
        ∨ (gameWidth * gameHeight).toNat
            ≤ (Food.generateRandomPositionAvoidingSnake gameWidth gameHeight rand snakeBody).2)
    ∧ (1 ≤ gameWidth → 1 ≤ gameHeight →
        (∀ i, 0 ≤ (rand i).1 ∧ (rand i).1 < 1 ∧ 0 ≤ (rand i).2 ∧ (rand i).2 < 1) →
        0 ≤ (Food.generateRandomPositionAvoidingSnake gameWidth gameHeight rand snakeBody).1.x
        ∧ (Food.generateRandomPositionAvoidingSnake gameWidth gameHeight rand snakeBody).1.x < gameWidth
        ∧ 0 ≤ (Food.generateRandomPositionAvoidingSnake gameWidth gameHeight rand snakeBody).1.y
        ∧ (Food.generateRandomPositionAvoidingSnake gameWidth gameHeight rand snakeBody).1.y < gameHeight) := by
  simp only [Food.generateRandomPositionAvoidingSnake]
  obtain ⟨hA1, hA2, hA3, hB, hC, hD⟩ := sampleLoop_spec gameWidth gameHeight rand snakeBody
    (gameWidth * gameHeight).toNat (gameWidth * gameHeight).toNat 0 (by omega)
  refine ⟨⟨hA1, ?_⟩, hB, fun i hir => hC i (Nat.zero_le i) hir, hD, ?_⟩
  · rcases Nat.lt_or_ge 1 (gameWidth * gameHeight).toNat with h2 | h2
    · exact le_trans (hA2 h2) (Nat.le_max_left _ _)
    · rw [hA3 h2]
      simp [Nat.le_max_right]
  · intro hw hh hr
    rw [hB]
    exact generateRandomPosition_range gameWidth gameHeight _ hw hh
      (hr _).1 (hr _).2.1 (hr _).2.2.1 (hr _).2.2.2

/-- Witness: on the 20x15 grid with a constant zero random source and an
empty body, the hypotheses of the range part hold and the resulting food
cell (0,0) lies on the grid. -/
theorem food_respawn_bounded_witness :
    (1 : Int) ≤ 20 ∧ (1 : Int) ≤ 15
    ∧ 0 ≤ (Food.generateRandomPositionAvoidingSnake 20 15 (fun _ => (0, 0)) []).1.x
    ∧ (Food.generateRandomPositionAvoidingSnake 20 15 (fun _ => (0, 0)) []).1.x < 20
    ∧ 0 ≤ (Food.generateRandomPositionAvoidingSnake 20 15 (fun _ => (0, 0)) []).1.y
    ∧ (Food.generateRandomPositionAvoidingSnake 20 15 (fun _ => (0, 0)) []).1.y < 15 := by
  have h := (food_respawn_bounded 20 15 (fun _ => (0, 0)) []).2.2.2.2
    (by norm_num) (by norm_num) (fun i => by norm_num)
  exact ⟨by norm_num, by norm_num, h.1, h.2.1, h.2.2.1, h.2.2.2⟩

/-- C8: on a running, unpaused frame with previous frame time t0, the
delta stored and delivered at frame time t1 is (t1 - t0)/1000 seconds
clamped at 0.1; the update callback receives exactly that delta and runs
before the render callback; and an absent update or render callback is
skipped silently (its event simply does not occur, no error). -/
theorem loopFrame_delta_clamp (state : GameLoopState) (t0 t1 : ℚ)
    (hasUpdateCallback hasRenderCallback : Bool)
    (hrun : state.isRunning = true) (hpause : state.isPaused = false)
    (hlast : state.lastFrameTime = t0) (hlt : t0 < t1) :
    (GameLoop.loopFrame state t1 hasUpdateCallback hasRenderCallback).1.deltaTime
        = min ((t1 - t0) / 1000) (1 / 10)
    ∧ (GameLoop.loopFrame state t1 hasUpdateCallback hasRenderCallback).2
        = (if hasUpdateCallback then
            [FrameEvent.update (min ((t1 - t0) / 1000) (1 / 10))] else [])
          ++ (if hasRenderCallback then [FrameEvent.render] else []) := by
  subst hlast
  simp [GameLoop.loopFrame, hrun, hpause]

/-- Witness: a frame 50 ms after the time origin delivers 1/20 s to both
callbacks, update first. -/
theorem loopFrame_delta_clamp_witness :
    ((⟨true, false, 0, 0⟩ : GameLoopState).isRunning = true)
    ∧ ((⟨true, false, 0, 0⟩ : GameLoopState).isPaused = false)
    ∧ ((0 : ℚ) < 50)
    ∧ (GameLoop.loopFrame ⟨true, false, 0, 0⟩ 50 true true).1.deltaTime
        = min (((50 : ℚ) - 0) / 1000) (1 / 10)
    ∧ (GameLoop.loopFrame ⟨true, false, 0, 0⟩ 50 true true).2
        = [FrameEvent.update (min (((50 : ℚ) - 0) / 1000) (1 / 10)), FrameEvent.render]
    ∧ min (((50 : ℚ) - 0) / 1000) (1 / 10) = 1 / 20 := by
  have h := loopFrame_delta_clamp ⟨true, false, 0, 0⟩ 0 50 true true rfl rfl rfl (by norm_num)
  refine ⟨rfl, rfl, by norm_num, h.1, ?_, by norm_num [min_def]⟩
  rw [h.2]
  rfl

/-- The pending-direction application can only change the direction and
the queue, never the body. -/
lemma applyPending_body (g : Game) :
    (g.applyPendingDirectionChange).snake.body = g.snake.body := by
  unfold Game.applyPendingDirectionChange
  cases hpd : g.pendingDirection with
  | none => rfl
  | some pending =>
    simp only []
    split
    · simp [setDirection_body]
    · simp [setDirection_body]

/-- On a tick where the finalized direction collides, the orchestrator
returns the post-finalization state with the terminal flag raised and
nothing else changed. -/
lemma updateSnakeMovement_collision_eq (g : Game) (deltaTime : ℚ)
    (hgo : g.gameOver = false)
    (htick : SNAKE_MOVE_INTERVAL ≤ g.lastMoveTime + deltaTime * 1000)
    (hcol : (Game.applyPendingDirectionChange
        { g with lastMoveTime := g.lastMoveTime + deltaTime * 1000 }).checkCollision = true) :
    g.updateSnakeMovement deltaTime
      = { Game.applyPendingDirectionChange
            { g with lastMoveTime := g.lastMoveTime + deltaTime * 1000 } with
          gameOver := true } := by
  simp only [Game.updateSnakeMovement]
  rw [if_neg (by simp [hgo]), if_pos htick, if_pos hcol]

/-- C2: when the collision recheck after finalizing the pending direction
reports a collision, the tick sets gameOver to true and does not move the
creature — its body, head, and length are exactly what they were before
the tick. -/
theorem collision_tick_freezes (g : Game) (deltaTime : ℚ)
    (hgo : g.gameOver = false)
    (htick : SNAKE_MOVE_INTERVAL ≤ g.lastMoveTime + deltaTime * 1000)
    (hcol : (Game.applyPendingDirectionChange
        { g with lastMoveTime := g.lastMoveTime + deltaTime * 1000 }).checkCollision = true) :
    (g.updateSnakeMovement deltaTime).gameOver = true
    ∧ (g.updateSnakeMovement deltaTime).snake.body = g.snake.body
    ∧ (g.updateSnakeMovement deltaTime).snake.getHead = g.snake.getHead
    ∧ (g.updateSnakeMovement deltaTime).snake.getBodyLength = g.snake.getBodyLength := by
  have hbody : (g.updateSnakeMovement deltaTime).snake.body = g.snake.body := by
    rw [updateSnakeMovement_collision_eq g deltaTime hgo htick hcol]
    show (Game.applyPendingDirectionChange
        { g with lastMoveTime := g.lastMoveTime + deltaTime * 1000 }).snake.body = g.snake.body
    rw [applyPending_body]
  refine ⟨?_, hbody, ?_, ?_⟩
  · rw [updateSnakeMovement_collision_eq g deltaTime hgo htick hcol]
  · unfold Snake.getHead
    rw [hbody]
  · unfold Snake.getBodyLength
    rw [hbody]

/-- Witness (Scenario D): a creature at (19,10) moving right on the 20x15
grid at a 200 ms tick boundary gets gameOver = true with its head still
at (19,10). -/
theorem collision_tick_freezes_witness :
    scenarioD.gameOver = false
    ∧ SNAKE_MOVE_INTERVAL ≤ scenarioD.lastMoveTime + (1 / 5) * 1000
    ∧ (Game.applyPendingDirectionChange
        { scenarioD with
          lastMoveTime := scenarioD.lastMoveTime + (1 / 5) * 1000 }).checkCollision = true
    ∧ (scenarioD.updateSnakeMovement (1 / 5)).gameOver = true
    ∧ (scenarioD.updateSnakeMovement (1 / 5)).snake.getHead = ⟨19, 10⟩ := by
  have h1 : scenarioD.gameOver = false := rfl
  have h2 : SNAKE_MOVE_INTERVAL ≤ scenarioD.lastMoveTime + (1 / 5) * 1000 := by
    norm_num [SNAKE_MOVE_INTERVAL, scenarioD]
  have h3 : (Game.applyPendingDirectionChange
      { scenarioD with
        lastMoveTime := scenarioD.lastMoveTime + (1 / 5) * 1000 }).checkCollision = true := by
    decide
  have h := collision_tick_freezes scenarioD (1 / 5) h1 h2 h3
  refine ⟨h1, h2, h3, h.1, ?_⟩
  rw [h.2.2.1]
  decide

/-- C1 (code evaluated at the failing input): in `growingTailGame` the
creature is growing, the cell targeted by the queued "down" — in bounds
and clear of every other non-head segment — is the tail, which will not
vacate this tick; yet the orchestrator accepts the turn (direction
becomes "down" instead of reverting to "right") because `snakeIsGrowing`
is hard-coded to false, and clears the queue. -/
theorem growing_tail_turn_not_reverted :
    0 < growingTailGame.snake.growthPending
    ∧ growingTailGame.snake.body.getLast? = some ⟨5, 6⟩
    ∧ growingTailGame.snake.getHead = ⟨5, 5⟩
    ∧ Game.getDirectionVector "down" = ⟨0, 1⟩
    ∧ ((0 : Int) ≤ 5 ∧ (5 : Int) < GAME_WIDTH ∧ (0 : Int) ≤ 6 ∧ (6 : Int) < GAME_HEIGHT)
    ∧ ¬ ((⟨5, 6⟩ : Point) ∈ (growingTailGame.snake.body.drop 1).dropLast)
    ∧ growingTailGame.pendingDirection = some "down"
    ∧ growingTailGame.snake.direction = "right"
    ∧ (growingTailGame.applyPendingDirectionChange).snake.direction = "down"
    ∧ (growingTailGame.applyPendingDirectionChange).pendingDirection = none := by
  decide

end SnakeGhost
